import Mathlib

/-!
Verification of the AITutor backend (FastAPI + SQLAlchemy) against its
natural-language specification.

The relational store is embedded as lists of record rows (one structure per
ORM model in backend/app/models).  Timestamps are seconds since the Unix
epoch in UTC (Nat).  Request handlers from backend/app/api are embedded as
pure functions from a database snapshot (plus the externally supplied LLM
generator outcome) to a result and the committed database.  The per-lesson
SELECT ... FOR UPDATE row lock serializes the locked section of the lesson
content handler, so a pair of racing requests is modelled by running the
handler twice in sequence; the pre-lock reads (lesson lookup and progress
rows) touch only data the locked section never modifies, so this is
observationally the same as the interleaved execution.

Commit/rollback is modelled by which database value a branch returns: a
branch that raises an HTTP error before commit returns the last committed
database (note resolve_effective_plan commits its own downgrade, as in the
source), and the success branch returns the fully updated database.
-/

/-! ## Data model (backend/app/models/user.py and course.py) -/

structure UserRec where
  id : Nat
  email : String
  hashed_password : String
  is_active : Bool
  is_admin : Bool
  plan_type : String
  trial_expires_at : Option Nat
  created_at : Nat
deriving DecidableEq, Repr

structure CourseRec where
  id : Nat
  title : String
  description : Option String
  topic : String
  learning_goal : Option String
  preferred_level : Option String
  created_by : Nat
  created_at : Nat
deriving DecidableEq, Repr

structure ModuleRec where
  id : Nat
  course_id : Nat
  title : String
  order_index : Int
deriving DecidableEq, Repr

/-- Quiz question payload (backend/app/schemas/course.py QuizQuestionSchema);
stored rows keep the same shape after model_dump. -/
structure QuizQuestionSchema where
  question : String
  options : List String
  correct_answer_index : Int
  explanation : String
deriving DecidableEq, Repr

structure LessonRec where
  id : Nat
  module_id : Nat
  title : String
  description : Option String
  order_index : Int
  content : Option String
  quiz_data : Option (List QuizQuestionSchema)
  content_generated_at : Option Nat
deriving DecidableEq, Repr

structure UserProgressRec where
  id : Nat
  user_id : Nat
  lesson_id : Nat
  is_completed : Bool
  quiz_score : Option Int
  updated_at : Option Nat
deriving DecidableEq, Repr

structure LLMUsageEventRec where
  id : Nat
  user_id : Option Nat
  operation : String
  input_tokens : Int
  output_tokens : Int
  total_tokens : Int
  created_at : Nat
deriving DecidableEq, Repr

/-- One relational database snapshot. -/
structure DB where
  users : List UserRec
  courses : List CourseRec
  modules : List ModuleRec
  lessons : List LessonRec
  progress : List UserProgressRec
  usage_events : List LLMUsageEventRec
deriving DecidableEq, Repr

/-! ## Generator output schemas (backend/app/schemas/course.py) -/

structure GeneratedLessonSchema where
  title : String
  description : String
  order_index : Int
deriving DecidableEq, Repr

structure GeneratedModuleSchema where
  title : String
  order_index : Int
  lessons : List GeneratedLessonSchema
deriving DecidableEq, Repr

structure GeneratedCourseSchema where
  title : String
  description : String
  modules : List GeneratedModuleSchema
deriving DecidableEq, Repr

structure GeneratedLessonContentSchema where
  content_markdown : String
  quiz : List QuizQuestionSchema
deriving DecidableEq, Repr

/-- Token-usage dictionary as consumed by log_llm_usage
(dict.get with defaults: every key may be absent). -/
structure UsageDict where
  input_tokens : Option Int
  output_tokens : Option Int
  total_tokens : Option Int
deriving DecidableEq, Repr

/-- Equality of handler outcomes is decidable (used to evaluate the model on
concrete inputs). -/
instance {e a : Type} [DecidableEq e] [DecidableEq a] : DecidableEq (Except e a) := fun x y =>
  match x, y with
  | .error v, .error w =>
    if h : v = w then .isTrue (by rw [h]) else .isFalse (by simp [h])
  | .error _, .ok _ => .isFalse (by simp)
  | .ok _, .error _ => .isFalse (by simp)
  | .ok v, .ok w =>
    if h : v = w then .isTrue (by rw [h]) else .isFalse (by simp [h])

/-! ## Request / response / error shapes -/

structure HttpError where
  status : Nat
  detail : String
deriving DecidableEq, Repr

structure CourseGenerateRequest where
  topic : String
  learning_goal : Option String
  preferred_level : Option String
deriving DecidableEq, Repr

structure UserProgressRequest where
  is_completed : Bool
  quiz_score : Option Int
deriving DecidableEq, Repr

structure LessonContentResponse where
  id : Nat
  module_id : Nat
  course_id : Nat
  title : String
  description : Option String
  content : Option String
  quiz_data : Option (List QuizQuestionSchema)
  progress : List UserProgressRec
deriving DecidableEq, Repr

structure UserCreate where
  email : String
  password : String
deriving DecidableEq, Repr

structure DailyRegistrationStat where
  date : Nat
  user_count : Nat
deriving DecidableEq, Repr

/-- Configuration (backend/app/core/config.py). -/
structure Settings where
  FREE_DAILY_COURSE_LIMIT : Nat
  FREE_DAILY_LESSON_LIMIT : Nat
  PREMIUM_TRIAL_DAYS : Int
deriving DecidableEq, Repr

def defaultSettings : Settings :=
  { FREE_DAILY_COURSE_LIMIT := 1, FREE_DAILY_LESSON_LIMIT := 2, PREMIUM_TRIAL_DAYS := 7 }

/-! ## Time and id helpers -/

def secondsPerDay : Nat := 86400

/-- backend/app/api/course.py get_day_window_utc: floor the current UTC
instant to midnight, window end is one day later. -/
def get_day_window_utc (now : Nat) : Nat × Nat :=
  let start_of_day := now / secondsPerDay * secondsPerDay
  (start_of_day, start_of_day + secondsPerDay)

/-- UTC calendar day of a timestamp (models func.date on a UTC timestamptz). -/
def dateOf (t : Nat) : Nat := t / secondsPerDay

/-- Autoincrement primary key allocation. -/
def freshId (ids : List Nat) : Nat := ids.foldr max 0 + 1

/-- Python truthiness of the nullable text column content
(if lesson.content: is False for both None and the empty string). -/
def contentTruthy : Option String → Bool
  | none => false
  | some s => decide (s ≠ "")

def replaceUser (db : DB) (u : UserRec) : DB :=
  { db with users := db.users.map (fun v => if v.id = u.id then u else v) }

/-! ## Plan and quota policy (backend/app/api/course.py lines 16-61) -/

/-- resolve_effective_plan: downgrade an expired premium trial to free and
commit, returning the effective plan.  Returns (plan, user row, committed db). -/
def resolve_effective_plan (now : Nat) (db : DB) (user : UserRec) :
    String × UserRec × DB :=
  match user.trial_expires_at with
  | some t =>
    if user.plan_type = "premium" ∧ t ≤ now then
      let u := { user with plan_type := "free" }
      ("free", u, replaceUser db u)
    else (user.plan_type, user, db)
  | none => (user.plan_type, user, db)

def courses_generated_today (now : Nat) (db : DB) (user_id : Nat) : Nat :=
  let w := get_day_window_utc now
  (db.courses.filter (fun c =>
    decide (c.created_by = user_id ∧ w.1 ≤ c.created_at ∧ c.created_at < w.2))).length

/-- enforce_free_course_limit: some error means the 429 was raised. -/
def enforce_free_course_limit (s : Settings) (now : Nat) (db : DB) (user_id : Nat) :
    Option HttpError :=
  if s.FREE_DAILY_COURSE_LIMIT ≤ courses_generated_today now db user_id then
    some { status := 429,
           detail := "Free plan limit reached: " ++
             toString s.FREE_DAILY_COURSE_LIMIT ++ " course per day." }
  else none

/-- Owner of a lesson through the Module and Course joins. -/
def lessonOwnerId (db : DB) (l : LessonRec) : Option Nat :=
  match db.modules.find? (fun m => decide (m.id = l.module_id)) with
  | none => none
  | some m =>
    match db.courses.find? (fun c => decide (c.id = m.course_id)) with
    | none => none
    | some c => some c.created_by

def lessons_generated_today (now : Nat) (db : DB) (user_id : Nat) : Nat :=
  let w := get_day_window_utc now
  (db.lessons.filter (fun l =>
    decide (lessonOwnerId db l = some user_id) &&
    match l.content_generated_at with
    | some t => decide (w.1 ≤ t ∧ t < w.2)
    | none => false)).length

def enforce_free_lesson_limit (s : Settings) (now : Nat) (db : DB) (user_id : Nat) :
    Option HttpError :=
  if s.FREE_DAILY_LESSON_LIMIT ≤ lessons_generated_today now db user_id then
    some { status := 429,
           detail := "Free plan limit reached: " ++
             toString s.FREE_DAILY_LESSON_LIMIT ++ " lessons per day." }
  else none

/-- log_llm_usage: append one usage-ledger row (dict.get defaults as in source). -/
def log_llm_usage (now : Nat) (db : DB) (user_id : Nat) (operation : String)
    (usage : Option UsageDict) : DB :=
  let u := usage.getD { input_tokens := none, output_tokens := none, total_tokens := none }
  let input_tokens := u.input_tokens.getD 0
  let output_tokens := u.output_tokens.getD 0
  let total_tokens := u.total_tokens.getD (input_tokens + output_tokens)
  { db with usage_events := db.usage_events ++
      [{ id := freshId (db.usage_events.map (fun e => e.id)),
         user_id := some user_id, operation := operation,
         input_tokens := input_tokens, output_tokens := output_tokens,
         total_tokens := total_tokens, created_at := now }] }

/-! ## Lesson content endpoint (backend/app/api/course.py lines 257-347) -/

/-- The lesson lookup of get_or_generate_lesson_content and
update_lesson_progress: select the Lesson joined through Module and Course,
filtered by Lesson.id = lesson_id AND Course.created_by = uid.  Ownership is
folded into the lookup, so a missing lesson and an unauthorized lesson are
both none. -/
def findOwnedLesson (db : DB) (uid : Nat) (lesson_id : Nat) :
    Option (LessonRec × ModuleRec × CourseRec) :=
  match db.lessons.find? (fun l => decide (l.id = lesson_id)) with
  | none => none
  | some l =>
    match db.modules.find? (fun m => decide (m.id = l.module_id)) with
    | none => none
    | some m =>
      match db.courses.find? (fun c => decide (c.id = m.course_id)) with
      | none => none
      | some c => if c.created_by = uid then some (l, m, c) else none

/-- The progress rows for the (user, lesson) pair, loaded before the lock. -/
def loadUserProgress (db : DB) (uid : Nat) (lesson_id : Nat) : List UserProgressRec :=
  db.progress.filter (fun p => decide (p.lesson_id = lesson_id ∧ p.user_id = uid))

def format_response (l : LessonRec) (m : ModuleRec)
    (progress_rows : List UserProgressRec) : LessonContentResponse :=
  { id := l.id, module_id := l.module_id, course_id := m.course_id,
    title := l.title, description := l.description,
    content := l.content, quiz_data := l.quiz_data, progress := progress_rows }

/-- get_or_generate_lesson_content.  The generator outcome (success payload
plus usage, or the repr text of the raised exception) is an input, since the
LLM is an external collaborator.  The SELECT ... FOR UPDATE row lock makes
the section from the re-read to commit/rollback atomic, which is what lets
this be a single function of the database snapshot. -/
def get_or_generate_lesson_content (s : Settings) (now : Nat) (db : DB)
    (current_user : UserRec) (lesson_id : Nat)
    (gen : Except String (GeneratedLessonContentSchema × Option UsageDict)) :
    Except HttpError LessonContentResponse × DB :=
  match findOwnedLesson db current_user.id lesson_id with
  | none => (.error { status := 404, detail := "Lesson not found" }, db)
  | some (lesson, m, _course) =>
    let current_user_progress := loadUserProgress db current_user.id lesson.id
    -- lock acquired; the locked re-read returns the same row of this snapshot
    if contentTruthy lesson.content then
      (.ok (format_response lesson m current_user_progress), db)
    else
      let resolved := resolve_effective_plan now db current_user
      let effective_plan := resolved.1
      let db1 := resolved.2.2
      let quota :=
        if effective_plan = "free" then
          enforce_free_lesson_limit s now db1 current_user.id
        else none
      match quota with
      | some err => (.error err, db1)
      | none =>
        match gen with
        | .error e =>
          (.error { status := 500, detail := "LLM Generation failed: " ++ e }, db1)
        | .ok (generated_data, usage) =>
          let lesson' : LessonRec := { lesson with
            content := some generated_data.content_markdown,
            content_generated_at := some now,
            quiz_data := some generated_data.quiz }
          let db2 := { db1 with
            lessons := db1.lessons.map (fun x => if decide (x.id = lesson.id) then lesson' else x) }
          let db3 := log_llm_usage now db2 current_user.id "lesson_content" usage
          (.ok (format_response lesson' m current_user_progress), db3)

/-! ## Course generation endpoint (backend/app/api/course.py lines 118-190)

The response serialization (reload with relationships and the float progress
percentage display field) is not embedded; the endpoint result carries the
stored course row, which is all the claims reference. -/

def insertLessons (db : DB) (module_id : Nat) : List GeneratedLessonSchema → DB
  | [] => db
  | g :: rest =>
    let l : LessonRec :=
      { id := freshId (db.lessons.map (fun x => x.id)), module_id := module_id,
        title := g.title, description := some g.description, order_index := g.order_index,
        content := none, quiz_data := none, content_generated_at := none }
    insertLessons { db with lessons := db.lessons ++ [l] } module_id rest

def insertModules (db : DB) (course_id : Nat) : List GeneratedModuleSchema → DB
  | [] => db
  | g :: rest =>
    let m : ModuleRec :=
      { id := freshId (db.modules.map (fun x => x.id)), course_id := course_id,
        title := g.title, order_index := g.order_index }
    let db1 := { db with modules := db.modules ++ [m] }
    insertModules (insertLessons db1 m.id g.lessons) course_id rest

def generate_and_save_course (s : Settings) (now : Nat) (db : DB)
    (current_user : UserRec) (request : CourseGenerateRequest)
    (gen : Except String (GeneratedCourseSchema × Option UsageDict)) :
    Except HttpError CourseRec × DB :=
  let resolved := resolve_effective_plan now db current_user
  let effective_plan := resolved.1
  let db0 := resolved.2.2
  let quota :=
    if effective_plan = "free" then enforce_free_course_limit s now db0 current_user.id
    else none
  match quota with
  | some err => (.error err, db0)
  | none =>
    match gen with
    | .error e =>
      (.error { status := 500, detail := "LLM Generation failed: " ++ e }, db0)
    | .ok (generated_course, usage) =>
      let new_course : CourseRec :=
        { id := freshId (db0.courses.map (fun c => c.id)),
          title := generated_course.title,
          description := some generated_course.description,
          topic := request.topic,
          learning_goal := request.learning_goal,
          preferred_level := request.preferred_level,
          created_by := current_user.id,
          created_at := now }
      let db1 := { db0 with courses := db0.courses ++ [new_course] }
      let db2 := insertModules db1 new_course.id generated_course.modules
      let db3 := log_llm_usage now db2 current_user.id "course_syllabus" usage
      (.ok new_course, db3)

/-! ## Progress upsert endpoint (backend/app/api/course.py lines 375-418) -/

def findMyProgress (db : DB) (uid : Nat) (lesson_id : Nat) : Option UserProgressRec :=
  db.progress.find? (fun p => decide (p.lesson_id = lesson_id ∧ p.user_id = uid))

def update_lesson_progress (now : Nat) (db : DB) (current_user : UserRec)
    (lesson_id : Nat) (progress_req : UserProgressRequest) :
    Except HttpError UserProgressRec × DB :=
  match findOwnedLesson db current_user.id lesson_id with
  | none => (.error { status := 404, detail := "Lesson not found" }, db)
  | some _ =>
    match findMyProgress db current_user.id lesson_id with
    | some progress =>
      let progress' : UserProgressRec := { progress with
        is_completed := progress_req.is_completed,
        quiz_score := match progress_req.quiz_score with
          | some v => some v
          | none => progress.quiz_score,
        updated_at := some now }
      (.ok progress',
       { db with progress :=
           db.progress.map (fun p => if decide (p.id = progress.id) then progress' else p) })
    | none =>
      let progress : UserProgressRec :=
        { id := freshId (db.progress.map (fun p => p.id)),
          user_id := current_user.id, lesson_id := lesson_id,
          is_completed := progress_req.is_completed,
          quiz_score := progress_req.quiz_score,
          updated_at := none }
      (.ok progress, { db with progress := db.progress ++ [progress] })

/-! ## Registration (backend/app/api/auth.py lines 15-40) and trial settings
(backend/app/core/runtime_settings.py) -/

def normalize_trial_days (value : Int) : Int := max 0 (min 365 value)

/-- get_premium_trial_days.  stored is none when no app_settings row exists,
some none when the stored value fails int parsing, some (some v) otherwise;
config_default is settings.PREMIUM_TRIAL_DAYS. -/
def get_premium_trial_days (stored : Option (Option Int)) (config_default : Int) : Int :=
  match stored with
  | none => normalize_trial_days config_default
  | some none => normalize_trial_days config_default
  | some (some v) => normalize_trial_days v

def register (now : Nat) (db : DB) (user_in : UserCreate) (hash : String → String)
    (stored_trial_setting : Option (Option Int)) (config_default_trial_days : Int) :
    Except HttpError UserRec × DB :=
  if db.users.any (fun u => decide (u.email = user_in.email)) then
    (.error { status := 400,
              detail := "The user with this email already exists in the system" }, db)
  else
    let trial_days := get_premium_trial_days stored_trial_setting config_default_trial_days
    let premium : Bool := decide (0 < trial_days)
    let user : UserRec :=
      { id := freshId (db.users.map (fun u => u.id)),
        email := user_in.email,
        hashed_password := hash user_in.password,
        is_active := true, is_admin := false,
        plan_type := if premium then "premium" else "free",
        trial_expires_at := if premium then some (now + secondsPerDay * trial_days.toNat) else none,
        created_at := now }
    (.ok user, { db with users := db.users ++ [user] })

/-! ## Admin insights (backend/app/api/admin.py lines 179-209) -/

/-- FastAPI Query(default=14, ge=1, le=90) validation on the days parameter. -/
def insightsDaysAccepted (days : Nat) : Bool := decide (1 ≤ days ∧ days ≤ 90)

def insightsDaysDefault : Nat := 14

/-- The daily_registrations computation of get_admin_insights: count users
registered in the lookback window grouped by UTC calendar day, then emit one
entry per day of the window in order, 0 when the day has no group.  The
per-day dict lookup rows_by_date.get(day, 0) is embedded as the length of the
filter restricted to that day. -/
def get_admin_insights_daily_registrations (now : Nat) (db : DB) (days : Nat) :
    List DailyRegistrationStat :=
  let start_of_day := (get_day_window_utc now).1
  let end_of_day := (get_day_window_utc now).2
  let lookback_start := start_of_day - (days - 1) * secondsPerDay
  (List.range days).map (fun offset =>
    let day := dateOf (lookback_start + offset * secondsPerDay)
    { date := day,
      user_count := (db.users.filter (fun u =>
        decide (lookback_start ≤ u.created_at ∧ u.created_at < end_of_day ∧
          dateOf u.created_at = day))).length })

/-! ## Concrete fixtures used by witnesses and counterexamples -/

def now0 : Nat := 19700 * secondsPerDay + 3600

def exUser : UserRec :=
  { id := 1, email := "alice@example.com", hashed_password := "hp",
    is_active := true, is_admin := false, plan_type := "premium",
    trial_expires_at := none, created_at := 19000 * secondsPerDay }

def exAdminFree : UserRec :=
  { exUser with id := 2, email := "admin@example.com", is_admin := true, plan_type := "free" }

def exCourse : CourseRec :=
  { id := 10, title := "Course", description := some "D", topic := "topic",
    learning_goal := none, preferred_level := none, created_by := 1,
    created_at := 19000 * secondsPerDay }

def exModule : ModuleRec := { id := 20, course_id := 10, title := "Module", order_index := 1 }

def exLessonNull : LessonRec :=
  { id := 30, module_id := 20, title := "Lesson", description := none, order_index := 1,
    content := none, quiz_data := none, content_generated_at := none }

def exDB : DB :=
  { users := [exUser], courses := [exCourse], modules := [exModule],
    lessons := [exLessonNull], progress := [], usage_events := [] }

def exLessonEmpty : LessonRec := { exLessonNull with content := some "" }

def exDBEmpty : DB := { exDB with lessons := [exLessonEmpty] }

def exCourseToday : CourseRec :=
  { exCourse with id := 11, created_by := 2, created_at := 19700 * secondsPerDay + 100 }

def exDBAdmin : DB :=
  { users := [exAdminFree], courses := [exCourseToday], modules := [], lessons := [],
    progress := [], usage_events := [] }

def exUserTrialNow : UserRec :=
  { exUser with id := 3, email := "carol@example.com", trial_expires_at := some now0 }

def exDBTrialNow : DB := { exDB with users := [exUserTrialNow] }

def exDBOtherOwner : DB := { exDB with courses := [{ exCourse with created_by := 77 }] }

def exProgress : UserProgressRec :=
  { id := 50, user_id := 1, lesson_id := 30, is_completed := false,
    quiz_score := none, updated_at := none }

def exDBProg : DB := { exDB with progress := [exProgress] }

def exLessonDone : LessonRec :=
  { exLessonNull with
    content := some "hello", quiz_data := some [],
    content_generated_at := some (19600 * secondsPerDay) }

def exDBDone : DB := { exDB with lessons := [exLessonDone] }

def exUserD1 : UserRec :=
  { exUser with id := 4, email := "d1@example.com", created_at := 19698 * secondsPerDay + 10 }

def exUserD3 : UserRec :=
  { exUser with id := 5, email := "d3@example.com", created_at := 19700 * secondsPerDay + 10 }

def exDBInsights : DB :=
  { users := [exUserD1, exUserD3], courses := [], modules := [], lessons := [],
    progress := [], usage_events := [] }

def exLessonGenBody : LessonRec :=
  { id := 30, module_id := 20, title := "Lesson", description := none, order_index := 1,
    content := some "body", quiz_data := some [], content_generated_at := some now0 }

def exRespBody : LessonContentResponse :=
  { id := 30, module_id := 20, course_id := 10, title := "Lesson", description := none,
    content := some "body", quiz_data := some [], progress := [] }

/-! ## General lemmas -/

/-- If find? locates a row and every row satisfying the replacement condition
is replaced by a row that itself matches the search predicate, then find? on
the updated list locates the replacement.  Used for re-reading a row after an
in-place UPDATE keyed on a matching row. -/
theorem find?_map_if_eq {α : Type} (pred cond : α → Bool) (b : α) :
    ∀ (l : List α) (a : α), l.find? pred = some a → pred b = true → cond a = true →
      (l.map (fun x => if cond x then b else x)).find? pred = some b := by
  intro l
  induction l with
  | nil => intro a h; simp at h
  | cons hd tl ih =>
    intro a hfind hb hcond
    by_cases hp : pred hd = true
    · have ha : hd = a := by
        rw [List.find?_cons_of_pos (a := hd) tl hp] at hfind
        exact Option.some.inj hfind
      subst ha
      simp only [List.map_cons]
      rw [if_pos hcond]
      exact List.find?_cons_of_pos _ hb
    · have hfind' : tl.find? pred = some a := by
        rw [List.find?_cons_of_neg (a := hd) tl hp] at hfind
        exact hfind
      simp only [List.map_cons]
      by_cases hch : cond hd = true
      · rw [if_pos hch]
        exact List.find?_cons_of_pos _ hb
      · rw [if_neg hch, List.find?_cons_of_neg (a := hd) _ hp]
        exact ih a hfind' hb hcond

/-- Updating only the progress table does not affect the lesson lookup. -/
theorem findOwnedLesson_progress_frame (db : DB) (X : List UserProgressRec)
    (uid : Nat) (lesson_id : Nat) :
    findOwnedLesson { db with progress := X } uid lesson_id =
      findOwnedLesson db uid lesson_id := rfl

theorem findOwnedLesson_eq_none (db : DB) (uid : Nat) (lesson_id : Nat)
    (h : (∀ l ∈ db.lessons, l.id ≠ lesson_id) ∨
         (∀ l m c, l ∈ db.lessons → l.id = lesson_id →
            m ∈ db.modules → m.id = l.module_id →
            c ∈ db.courses → c.id = m.course_id → c.created_by ≠ uid)) :
    findOwnedLesson db uid lesson_id = none := by
  cases h with
  | inl h =>
    have hnone : db.lessons.find? (fun l => decide (l.id = lesson_id)) = none := by
      rw [List.find?_eq_none]
      intro l hl
      simpa using h l hl
    simp [findOwnedLesson, hnone]
  | inr h =>
    cases hl : db.lessons.find? (fun l => decide (l.id = lesson_id)) with
    | none => simp [findOwnedLesson, hl]
    | some l =>
      have hlmem : l ∈ db.lessons := List.mem_of_find?_eq_some hl
      have hlid : l.id = lesson_id := by simpa using List.find?_some hl
      cases hm : db.modules.find? (fun m => decide (m.id = l.module_id)) with
      | none => simp [findOwnedLesson, hl, hm]
      | some m =>
        have hmmem : m ∈ db.modules := List.mem_of_find?_eq_some hm
        have hmid : m.id = l.module_id := by simpa using List.find?_some hm
        cases hc : db.courses.find? (fun c => decide (c.id = m.course_id)) with
        | none => simp [findOwnedLesson, hl, hm, hc]
        | some c =>
          have hcmem : c ∈ db.courses := List.mem_of_find?_eq_some hc
          have hcid : c.id = m.course_id := by simpa using List.find?_some hc
          have hny : c.created_by ≠ uid := h l m c hlmem hlid hmmem hmid hcmem hcid
          simp [findOwnedLesson, hl, hm, hc, hny]

/-! ## Claim theorems -/

/-- C6 (amended): plan resolution downgrades a premium user whose
trial_expires_at is at or before the current instant (the code compares with
less-or-equal, so the downgrade also fires when the expiry equals now, not
only when it is strictly in the past), persists the change and returns free;
any other user is returned unchanged with the stored plan; and the operation
is idempotent at a fixed instant. -/
theorem resolve_effective_plan_spec (now : Nat) (db : DB) (u : UserRec) :
    (∀ t, u.trial_expires_at = some t → u.plan_type = "premium" → t ≤ now →
      resolve_effective_plan now db u =
        ("free", { u with plan_type := "free" }, replaceUser db { u with plan_type := "free" })) ∧
    ((u.plan_type ≠ "premium" ∨ u.trial_expires_at = none ∨
        (∀ t, u.trial_expires_at = some t → now < t)) →
      resolve_effective_plan now db u = (u.plan_type, u, db)) ∧
    (resolve_effective_plan now (resolve_effective_plan now db u).2.2
        (resolve_effective_plan now db u).2.1 = resolve_effective_plan now db u) := by
  refine ⟨?_, ?_, ?_⟩
  · intro t ht hplan hle
    simp [resolve_effective_plan, ht, hplan, hle]
  · intro h
    cases ht : u.trial_expires_at with
    | none => simp [resolve_effective_plan, ht]
    | some t =>
      rcases h with h | h | h
      · simp [resolve_effective_plan, ht, h]
      · rw [ht] at h; exact absurd h (by simp)
      · have : now < t := h t ht
        simp [resolve_effective_plan, ht]
        intro hplan
        omega
  · cases ht : u.trial_expires_at with
    | none => simp [resolve_effective_plan, ht]
    | some t =>
      by_cases hc : u.plan_type = "premium" ∧ t ≤ now
      · simp [resolve_effective_plan, ht, hc]
      · simp [resolve_effective_plan, ht, hc]

/-- C6 counterexample: a premium user whose trial_expires_at equals the
current instant (so it is not in the past) is nevertheless downgraded and
reported as free, contradicting the claim that every user other than those
with an expiry strictly in the past keeps the stored plan. -/
theorem resolve_effective_plan_boundary_cex :
    exUserTrialNow.plan_type = "premium" ∧
    exUserTrialNow.trial_expires_at = some now0 ∧ ¬ now0 < now0 ∧
    (resolve_effective_plan now0 exDBTrialNow exUserTrialNow).1 = "free" ∧
    (resolve_effective_plan now0 exDBTrialNow exUserTrialNow).2.1.plan_type = "free" := by
  refine ⟨rfl, rfl, by omega, rfl, rfl⟩

/-- C6 witness: the spec theorem applied at concrete inputs — a premium user
with an expired trial is downgraded and persisted; a free user is untouched;
idempotence at the downgraded user. -/
theorem resolve_effective_plan_spec_witness :
    (resolve_effective_plan 100 exDB { exUser with trial_expires_at := some 50 } =
      ("free", { exUser with trial_expires_at := some 50, plan_type := "free" },
        replaceUser exDB { exUser with trial_expires_at := some 50, plan_type := "free" })) ∧
    (resolve_effective_plan 100 exDB exAdminFree = ("free", exAdminFree, exDB)) ∧
    (resolve_effective_plan now0 (resolve_effective_plan now0 exDBTrialNow exUserTrialNow).2.2
        (resolve_effective_plan now0 exDBTrialNow exUserTrialNow).2.1 =
      resolve_effective_plan now0 exDBTrialNow exUserTrialNow) :=
  ⟨(resolve_effective_plan_spec 100 exDB { exUser with trial_expires_at := some 50 }).1
      50 rfl rfl (by omega),
   (resolve_effective_plan_spec 100 exDB exAdminFree).2.1 (Or.inl (by decide)),
   (resolve_effective_plan_spec now0 exDBTrialNow exUserTrialNow).2.2⟩

/-- C7: both daily quota counters count exactly the events whose timestamp
falls in the half-open UTC calendar-day window of the current instant:
window membership is the same-UTC-day relation, the course counter counts
the user's courses created on the current UTC day, the lesson counter counts
the user's lessons content-generated on the current UTC day, and an event at
23:59:59 and one at 00:00:01 the next day land in different windows (the
counters reset exactly at UTC midnight). -/
theorem quota_windows_are_utc_days (now : Nat) (db : DB) (uid : Nat) :
    (∀ t, ((get_day_window_utc now).1 ≤ t ∧ t < (get_day_window_utc now).2) ↔
        dateOf t = dateOf now) ∧
    courses_generated_today now db uid =
      (db.courses.filter (fun c =>
        decide (c.created_by = uid ∧ dateOf c.created_at = dateOf now))).length ∧
    lessons_generated_today now db uid =
      (db.lessons.filter (fun l =>
        decide (lessonOwnerId db l = some uid) &&
        match l.content_generated_at with
        | some t => decide (dateOf t = dateOf now)
        | none => false)).length ∧
    (∀ d : Nat,
      ((get_day_window_utc (d * secondsPerDay + 86399)).1 ≤ d * secondsPerDay + 86399 ∧
        d * secondsPerDay + 86399 < (get_day_window_utc (d * secondsPerDay + 86399)).2) ∧
      ¬ ((get_day_window_utc (d * secondsPerDay + 86399)).1 ≤ (d + 1) * secondsPerDay + 1 ∧
        (d + 1) * secondsPerDay + 1 < (get_day_window_utc (d * secondsPerDay + 86399)).2) ∧
      (((get_day_window_utc ((d + 1) * secondsPerDay + 1)).1 ≤ (d + 1) * secondsPerDay + 1 ∧
        (d + 1) * secondsPerDay + 1 < (get_day_window_utc ((d + 1) * secondsPerDay + 1)).2)) ∧
      ¬ ((get_day_window_utc ((d + 1) * secondsPerDay + 1)).1 ≤ d * secondsPerDay + 86399 ∧
        d * secondsPerDay + 86399 < (get_day_window_utc ((d + 1) * secondsPerDay + 1)).2)) := by
  refine ⟨?_, ?_, ?_, ?_⟩
  · intro t
    simp only [get_day_window_utc, dateOf, secondsPerDay]
    omega
  · unfold courses_generated_today
    dsimp only
    congr 1
    apply List.filter_congr
    intro c _
    rw [decide_eq_decide]
    simp only [get_day_window_utc, dateOf, secondsPerDay]
    omega
  · unfold lessons_generated_today
    dsimp only
    congr 1
    apply List.filter_congr
    intro l _
    cases hg : l.content_generated_at with
    | none => simp [hg]
    | some t =>
      simp only [hg]
      congr 1
      rw [decide_eq_decide]
      simp only [get_day_window_utc, dateOf, secondsPerDay]
      omega
  · intro d
    simp only [get_day_window_utc, secondsPerDay]
    omega

/-- C7 witness: concrete instants on UTC days 19700 and 19701 — a course at
23:59:59 counts for a check the same day and not for a check one second
after midnight, and conversely. -/
theorem quota_windows_are_utc_days_witness :
    (((get_day_window_utc (19700 * secondsPerDay + 86399)).1 ≤ 19700 * secondsPerDay + 86399 ∧
        19700 * secondsPerDay + 86399 < (get_day_window_utc (19700 * secondsPerDay + 86399)).2) ∧
      ¬ ((get_day_window_utc (19700 * secondsPerDay + 86399)).1 ≤ 19701 * secondsPerDay + 1 ∧
        19701 * secondsPerDay + 1 < (get_day_window_utc (19700 * secondsPerDay + 86399)).2) ∧
      (((get_day_window_utc (19701 * secondsPerDay + 1)).1 ≤ 19701 * secondsPerDay + 1 ∧
        19701 * secondsPerDay + 1 < (get_day_window_utc (19701 * secondsPerDay + 1)).2)) ∧
      ¬ ((get_day_window_utc (19701 * secondsPerDay + 1)).1 ≤ 19700 * secondsPerDay + 86399 ∧
        19700 * secondsPerDay + 86399 < (get_day_window_utc (19701 * secondsPerDay + 1)).2)) ∧
    courses_generated_today now0 exDBAdmin 2 = 1 := by
  constructor
  · have h := (quota_windows_are_utc_days now0 exDBAdmin 2).2.2.2 19700
    simpa [secondsPerDay] using h
  · rfl

/-- C8: a lesson-content request for a lesson id that does not exist, and one
for a lesson that exists but whose course belongs to another user, fail with
the identical NotFound error (status 404, detail "Lesson not found"), leaving
the database untouched — the two cases are indistinguishable to the caller
and no Forbidden-style response is produced. -/
theorem lesson_lookup_anti_enumeration (s : Settings) (now : Nat) (db : DB)
    (u : UserRec) (lesson_id : Nat)
    (gen : Except String (GeneratedLessonContentSchema × Option UsageDict))
    (h : (∀ l ∈ db.lessons, l.id ≠ lesson_id) ∨
         (∀ l m c, l ∈ db.lessons → l.id = lesson_id →
            m ∈ db.modules → m.id = l.module_id →
            c ∈ db.courses → c.id = m.course_id → c.created_by ≠ u.id)) :
    get_or_generate_lesson_content s now db u lesson_id gen =
      (.error { status := 404, detail := "Lesson not found" }, db) ∧ (404 : Nat) ≠ 403 := by
  have hnone := findOwnedLesson_eq_none db u.id lesson_id h
  exact ⟨by simp [get_or_generate_lesson_content, hnone], by omega⟩

/-- C8 witness: a request for the absent lesson id 999 and a request for
lesson 30 owned by user 77 (issued by user 1) both yield the same 404. -/
theorem lesson_lookup_anti_enumeration_witness :
    (get_or_generate_lesson_content defaultSettings now0 exDB exUser 999
        (.ok ({ content_markdown := "x", quiz := [] }, none)) =
      (.error { status := 404, detail := "Lesson not found" }, exDB)) ∧
    (get_or_generate_lesson_content defaultSettings now0 exDBOtherOwner exUser 30
        (.ok ({ content_markdown := "x", quiz := [] }, none)) =
      (.error { status := 404, detail := "Lesson not found" }, exDBOtherOwner)) :=
  ⟨(lesson_lookup_anti_enumeration defaultSettings now0 exDB exUser 999 _
      (Or.inl (by
        intro l hl
        simp [exDB, exLessonNull] at hl
        subst hl
        decide))).1,
   (lesson_lookup_anti_enumeration defaultSettings now0 exDBOtherOwner exUser 30 _
      (Or.inr (by
        intro l m c hl hlid hm hmid hc hcid
        simp [exDBOtherOwner, exDB, exCourse] at hc
        subst hc
        decide))).1⟩

/-- C5: upserting progress with a null quiz_score updates is_completed but
leaves the stored quiz_score unchanged; in particular completing with a score
and then un-completing with a null score keeps the recorded score. -/
theorem progress_upsert_preserves_quiz_score (now1 now2 : Nat) (db : DB) (u : UserRec)
    (lid : Nat) (p : UserProgressRec) (v : Int) (b : Bool)
    (howned : (findOwnedLesson db u.id lid).isSome = true)
    (hfound : findMyProgress db u.id lid = some p) :
    (∀ r db2,
        update_lesson_progress now1 db u lid { is_completed := b, quiz_score := none } =
          (.ok r, db2) →
        r.is_completed = b ∧ r.quiz_score = p.quiz_score ∧
        findMyProgress db2 u.id lid = some r) ∧
    (∀ r1 db1 r2 db2,
        update_lesson_progress now1 db u lid { is_completed := true, quiz_score := some v } =
          (.ok r1, db1) →
        update_lesson_progress now2 db1 u lid { is_completed := false, quiz_score := none } =
          (.ok r2, db2) →
        r1.quiz_score = some v ∧ r2.is_completed = false ∧ r2.quiz_score = some v ∧
        findMyProgress db2 u.id lid = some r2) := by
  obtain ⟨trip, htrip⟩ := Option.isSome_iff_exists.mp howned
  have hfound' :
      db.progress.find? (fun q => decide (q.lesson_id = lid ∧ q.user_id = u.id)) = some p :=
    hfound
  have hpredp := List.find?_some hfound'
  constructor
  · intro r db2 heq
    simp only [update_lesson_progress, htrip, findMyProgress, hfound'] at heq
    simp only [Prod.mk.injEq, Except.ok.injEq] at heq
    obtain ⟨hr, hdb⟩ := heq
    subst hr
    subst hdb
    refine ⟨rfl, rfl, ?_⟩
    exact find?_map_if_eq _ (fun q => decide (q.id = p.id))
      { id := p.id, user_id := p.user_id, lesson_id := p.lesson_id, is_completed := b,
        quiz_score := p.quiz_score, updated_at := some now1 }
      db.progress p hfound' hpredp (by simp)
  · intro r1 db1 r2 db2 heq1 heq2
    simp only [update_lesson_progress, htrip, findMyProgress, hfound'] at heq1
    simp only [Prod.mk.injEq, Except.ok.injEq] at heq1
    obtain ⟨hr1, hdb1⟩ := heq1
    subst hr1
    subst hdb1
    have hfind2 :
        (db.progress.map (fun q => if decide (q.id = p.id) then
            { p with is_completed := true, quiz_score := some v, updated_at := some now1 }
          else q)).find? (fun q => decide (q.lesson_id = lid ∧ q.user_id = u.id)) =
          some { p with is_completed := true, quiz_score := some v, updated_at := some now1 } :=
      find?_map_if_eq _ (fun q => decide (q.id = p.id))
        { p with is_completed := true, quiz_score := some v, updated_at := some now1 }
        db.progress p hfound' hpredp (by simp)
    simp only [update_lesson_progress, findMyProgress] at heq2
    rw [findOwnedLesson_progress_frame, htrip] at heq2
    rw [hfind2] at heq2
    simp only [Prod.mk.injEq, Except.ok.injEq] at heq2
    obtain ⟨hr2, hdb2⟩ := heq2
    subst hr2
    subst hdb2
    refine ⟨rfl, rfl, rfl, ?_⟩
    exact find?_map_if_eq _ (fun q => decide (q.id = p.id))
      { p with is_completed := false, quiz_score := some v, updated_at := some now2 } _
      { p with is_completed := true, quiz_score := some v, updated_at := some now1 }
      hfind2 hpredp (by simp)

/-- C5 witness: completing lesson 30 with score 80 and then marking it
not-completed with a null score keeps quiz_score 80 in the returned row and
in the stored row. -/
theorem progress_upsert_preserves_quiz_score_witness :
    ({ id := 50, user_id := 1, lesson_id := 30, is_completed := true,
       quiz_score := some 80, updated_at := some now0 } : UserProgressRec).quiz_score = some 80 ∧
    ({ id := 50, user_id := 1, lesson_id := 30, is_completed := false,
       quiz_score := some 80, updated_at := some (now0 + 10) } : UserProgressRec).is_completed
      = false ∧
    ({ id := 50, user_id := 1, lesson_id := 30, is_completed := false,
       quiz_score := some 80, updated_at := some (now0 + 10) } : UserProgressRec).quiz_score
      = some 80 ∧
    findMyProgress { exDBProg with progress :=
        [{ id := 50, user_id := 1, lesson_id := 30, is_completed := false,
           quiz_score := some 80, updated_at := some (now0 + 10) }] } 1 30 =
      some { id := 50, user_id := 1, lesson_id := 30, is_completed := false,
             quiz_score := some 80, updated_at := some (now0 + 10) } := by
  have h := progress_upsert_preserves_quiz_score now0 (now0 + 10) exDBProg exUser 30
    exProgress 80 true (by decide) (by decide)
  exact h.2 _ _ _ _ rfl rfl

/-- C9: the admin insights daily-registration series for a lookback of days
in the accepted 1..90 range is exactly one entry per consecutive UTC calendar
day ending today, in chronological order, each carrying the number of users
created on that day (0 when there were none). -/
theorem admin_insights_daily_registrations_spec (now : Nat) (db : DB) (days : Nat)
    (hacc : insightsDaysAccepted days = true)
    (hepoch : (days - 1) * secondsPerDay ≤ (get_day_window_utc now).1) :
    get_admin_insights_daily_registrations now db days =
      (List.range days).map (fun offset =>
        { date := dateOf now - (days - 1) + offset,
          user_count := (db.users.filter (fun u =>
            decide (dateOf u.created_at = dateOf now - (days - 1) + offset))).length }) ∧
    (get_admin_insights_daily_registrations now db days).length = days := by
  have hdays : 1 ≤ days ∧ days ≤ 90 := of_decide_eq_true hacc
  have hep : (days - 1) * secondsPerDay ≤ now / secondsPerDay * secondsPerDay := by
    simpa [get_day_window_utc] using hepoch
  constructor
  · unfold get_admin_insights_daily_registrations
    dsimp only
    apply List.map_congr_left
    intro offset hoff
    rw [List.mem_range] at hoff
    have hdate : dateOf (now / secondsPerDay * secondsPerDay - (days - 1) * secondsPerDay +
        offset * secondsPerDay) = dateOf now - (days - 1) + offset := by
      unfold dateOf secondsPerDay at *
      omega
    rw [get_day_window_utc]
    dsimp only
    rw [hdate]
    congr 1
    congr 1
    apply List.filter_congr
    intro u _
    rw [decide_eq_decide]
    unfold dateOf secondsPerDay at *
    omega
  · unfold get_admin_insights_daily_registrations
    simp

/-- C9 witness: a 3-day lookback over a database with registrations on day
19698 and day 19700 only, checked on day 19700 — the middle day 19699
appears with user_count 0 and the series is the three consecutive days. -/
theorem admin_insights_daily_registrations_spec_witness :
    (get_admin_insights_daily_registrations now0 exDBInsights 3 =
      (List.range 3).map (fun offset =>
        { date := dateOf now0 - (3 - 1) + offset,
          user_count := (exDBInsights.users.filter (fun u =>
            decide (dateOf u.created_at = dateOf now0 - (3 - 1) + offset))).length }) ∧
     (get_admin_insights_daily_registrations now0 exDBInsights 3).length = 3) ∧
    get_admin_insights_daily_registrations now0 exDBInsights 3 =
      [{ date := 19698, user_count := 1 }, { date := 19699, user_count := 0 },
       { date := 19700, user_count := 1 }] := by
  constructor
  · exact admin_insights_daily_registrations_spec now0 exDBInsights 3 (by decide) (by decide)
  · decide

/-- C10: registering an unused email creates the account on a premium trial
expiring the clamped configured number of days from now whenever that clamped
value is positive, and as a plain free account with no expiry when it is
zero; the clamp keeps the effective trial days within 0..365. -/
theorem register_trial_plan_assignment (now : Nat) (db : DB) (user_in : UserCreate)
    (hash : String → String) (stored : Option (Option Int)) (dflt : Int)
    (hfresh : ∀ u ∈ db.users, u.email ≠ user_in.email) :
    ∃ r, register now db user_in hash stored dflt =
        (.ok r, { db with users := db.users ++ [r] }) ∧
      (0 < get_premium_trial_days stored dflt →
        r.plan_type = "premium" ∧
        r.trial_expires_at =
          some (now + secondsPerDay * (get_premium_trial_days stored dflt).toNat)) ∧
      (get_premium_trial_days stored dflt = 0 →
        r.plan_type = "free" ∧ r.trial_expires_at = none) ∧
      0 ≤ get_premium_trial_days stored dflt ∧ get_premium_trial_days stored dflt ≤ 365 ∧
      r.email = user_in.email ∧ r.created_at = now ∧ r.is_admin = false := by
  have hany : db.users.any (fun v => decide (v.email = user_in.email)) = false := by
    rw [List.any_eq_false]
    intro x hx
    simpa using hfresh x hx
  have hbounds : 0 ≤ get_premium_trial_days stored dflt ∧
      get_premium_trial_days stored dflt ≤ 365 := by
    rcases stored with _ | (_ | w) <;>
      simp only [get_premium_trial_days, normalize_trial_days] <;> constructor <;> omega
  refine ⟨{ id := freshId (db.users.map (fun u => u.id)), email := user_in.email,
            hashed_password := hash user_in.password, is_active := true, is_admin := false,
            plan_type :=
              if decide (0 < get_premium_trial_days stored dflt) then "premium" else "free",
            trial_expires_at :=
              if decide (0 < get_premium_trial_days stored dflt) then
                some (now + secondsPerDay * (get_premium_trial_days stored dflt).toNat)
              else none,
            created_at := now }, ?_, ?_, ?_, hbounds.1, hbounds.2, rfl, rfl, rfl⟩
  · simp only [register, hany]
    rfl
  · intro hpos
    simp only [register]
    constructor
    · simp [hpos]
    · simp [hpos]
  · intro hzero
    simp only [register]
    constructor
    · simp [hzero]
    · simp [hzero]

/-- C10 witness: with a stored trial setting of 7 days the new account is
premium with expiry 7 days out; with a stored setting of 0 days it is free
with no expiry. -/
theorem register_trial_plan_assignment_witness :
    (0 < get_premium_trial_days (some (some 7)) 7 →
      (register now0 exDB { email := "new@example.com", password := "pw" }
          (fun _ => "hashed") (some (some 7)) 7).1.toOption.map
        (fun r => (r.plan_type, r.trial_expires_at)) =
      some ("premium", some (now0 + secondsPerDay * 7))) ∧
    (register now0 exDB { email := "new@example.com", password := "pw" }
        (fun _ => "hashed") (some (some 0)) 7).1.toOption.map
      (fun r => (r.plan_type, r.trial_expires_at)) = some ("free", none) := by
  obtain ⟨r7, heq7, hpos7, _hz7, _⟩ := register_trial_plan_assignment now0 exDB
    { email := "new@example.com", password := "pw" } (fun _ => "hashed")
    (some (some 7)) 7 (by intro x hx; simp [exDB, exUser] at hx; subst hx; decide)
  obtain ⟨r0, heq0, _hp0, hz0, _⟩ := register_trial_plan_assignment now0 exDB
    { email := "new@example.com", password := "pw" } (fun _ => "hashed")
    (some (some 0)) 7 (by intro x hx; simp [exDB, exUser] at hx; subst hx; decide)
  constructor
  · intro hpos
    obtain ⟨hplan, hexp⟩ := hpos7 hpos
    have h1 : (register now0 exDB { email := "new@example.com", password := "pw" }
        (fun _ => "hashed") (some (some 7)) 7).1 = .ok r7 := by rw [heq7]
    rw [h1]
    show some (r7.plan_type, r7.trial_expires_at) =
      some ("premium", some (now0 + secondsPerDay * 7))
    rw [hplan, hexp]
    decide
  · obtain ⟨hplan, hexp⟩ := hz0 (by decide)
    have h0 : (register now0 exDB { email := "new@example.com", password := "pw" }
        (fun _ => "hashed") (some (some 0)) 7).1 = .ok r0 := by rw [heq0]
    rw [h0]
    show some (r0.plan_type, r0.trial_expires_at) = some ("free", none)
    rw [hplan, hexp]

/-! ## Shape lemmas for the lesson content endpoint -/

theorem resolve_effective_plan_frame (now : Nat) (db : DB) (u : UserRec) :
    (resolve_effective_plan now db u).2.2.lessons = db.lessons ∧
    (resolve_effective_plan now db u).2.2.modules = db.modules ∧
    (resolve_effective_plan now db u).2.2.courses = db.courses ∧
    (resolve_effective_plan now db u).2.2.progress = db.progress ∧
    (resolve_effective_plan now db u).2.2.usage_events = db.usage_events := by
  cases ht : u.trial_expires_at with
  | none => simp [resolve_effective_plan, ht]
  | some t =>
    by_cases hc : u.plan_type = "premium" ∧ t ≤ now
    · simp [resolve_effective_plan, ht, hc, replaceUser]
    · simp [resolve_effective_plan, ht, hc]

theorem findOwnedLesson_eq_some_elim (db : DB) (uid lid : Nat) (l : LessonRec)
    (m : ModuleRec) (c : CourseRec)
    (h : findOwnedLesson db uid lid = some (l, m, c)) :
    db.lessons.find? (fun x => decide (x.id = lid)) = some l ∧
    db.modules.find? (fun x => decide (x.id = l.module_id)) = some m ∧
    db.courses.find? (fun x => decide (x.id = m.course_id)) = some c ∧
    c.created_by = uid := by
  unfold findOwnedLesson at h
  split at h
  · exact absurd h (by simp)
  · rename_i l0 heq
    split at h
    · exact absurd h (by simp)
    · rename_i m0 heq2
      split at h
      · exact absurd h (by simp)
      · rename_i c0 heq3
        split at h
        · rename_i hcb
          simp only [Option.some.injEq, Prod.mk.injEq] at h
          obtain ⟨h1, h2, h3⟩ := h
          subst h1
          subst h2
          subst h3
          exact ⟨heq, heq2, heq3, hcb⟩
        · exact absurd h (by simp)

theorem gogl_notfound (s : Settings) (now : Nat) (db : DB) (u : UserRec) (lid : Nat)
    (gen : Except String (GeneratedLessonContentSchema × Option UsageDict))
    (h : findOwnedLesson db u.id lid = none) :
    get_or_generate_lesson_content s now db u lid gen =
      (.error { status := 404, detail := "Lesson not found" }, db) := by
  simp [get_or_generate_lesson_content, h]

theorem gogl_fast_path (s : Settings) (now : Nat) (db : DB) (u : UserRec) (lid : Nat)
    (gen : Except String (GeneratedLessonContentSchema × Option UsageDict))
    (l : LessonRec) (m : ModuleRec) (c : CourseRec)
    (hfo : findOwnedLesson db u.id lid = some (l, m, c))
    (hct : contentTruthy l.content = true) :
    get_or_generate_lesson_content s now db u lid gen =
      (.ok (format_response l m (loadUserProgress db u.id l.id)), db) := by
  simp only [get_or_generate_lesson_content, hfo]
  rw [if_pos hct]

theorem gogl_quota_hit (s : Settings) (now : Nat) (db : DB) (u : UserRec) (lid : Nat)
    (gen : Except String (GeneratedLessonContentSchema × Option UsageDict))
    (l : LessonRec) (m : ModuleRec) (c : CourseRec) (err : HttpError)
    (hfo : findOwnedLesson db u.id lid = some (l, m, c))
    (hct : contentTruthy l.content = false)
    (hq : (if (resolve_effective_plan now db u).1 = "free" then
        enforce_free_lesson_limit s now (resolve_effective_plan now db u).2.2 u.id
      else none) = some err) :
    get_or_generate_lesson_content s now db u lid gen =
      (.error err, (resolve_effective_plan now db u).2.2) := by
  simp only [get_or_generate_lesson_content, hfo]
  rw [if_neg (show ¬ contentTruthy l.content = true by simp [hct])]
  rw [hq]

theorem gogl_gen_error (s : Settings) (now : Nat) (db : DB) (u : UserRec) (lid : Nat)
    (e : String) (l : LessonRec) (m : ModuleRec) (c : CourseRec)
    (hfo : findOwnedLesson db u.id lid = some (l, m, c))
    (hct : contentTruthy l.content = false)
    (hq : (if (resolve_effective_plan now db u).1 = "free" then
        enforce_free_lesson_limit s now (resolve_effective_plan now db u).2.2 u.id
      else none) = none) :
    get_or_generate_lesson_content s now db u lid (.error e) =
      (.error { status := 500, detail := "LLM Generation failed: " ++ e },
       (resolve_effective_plan now db u).2.2) := by
  simp only [get_or_generate_lesson_content, hfo]
  rw [if_neg (show ¬ contentTruthy l.content = true by simp [hct])]
  rw [hq]

theorem gogl_success (s : Settings) (now : Nat) (db : DB) (u : UserRec) (lid : Nat)
    (g : GeneratedLessonContentSchema) (usage : Option UsageDict)
    (l : LessonRec) (m : ModuleRec) (c : CourseRec)
    (hfo : findOwnedLesson db u.id lid = some (l, m, c))
    (hct : contentTruthy l.content = false)
    (hq : (if (resolve_effective_plan now db u).1 = "free" then
        enforce_free_lesson_limit s now (resolve_effective_plan now db u).2.2 u.id
      else none) = none) :
    get_or_generate_lesson_content s now db u lid (.ok (g, usage)) =
      (.ok (format_response
        { l with
          content := some g.content_markdown, content_generated_at := some now,
          quiz_data := some g.quiz } m (loadUserProgress db u.id l.id)),
       log_llm_usage now
         { (resolve_effective_plan now db u).2.2 with
           lessons := (resolve_effective_plan now db u).2.2.lessons.map
             (fun x => if decide (x.id = l.id) then
                { l with
                  content := some g.content_markdown, content_generated_at := some now,
                  quiz_data := some g.quiz }
              else x) }
         u.id "lesson_content" usage) := by
  simp only [get_or_generate_lesson_content, hfo]
  rw [if_neg (show ¬ contentTruthy l.content = true by simp [hct])]
  rw [hq]

/-- C2 (amended): a user whose effective plan resolves to premium bypasses
both daily quota checks — neither course generation nor lesson generation can
return a 429 for them, whatever the database contains.  Admin status by
itself is not consulted by either quota gate: an admin whose effective plan
is free is rate-limited like any free user (see the counterexample). -/
theorem premium_plan_bypasses_quota (s : Settings) (now : Nat) (db : DB) (u : UserRec)
    (req : CourseGenerateRequest)
    (genC : Except String (GeneratedCourseSchema × Option UsageDict))
    (lid : Nat) (genL : Except String (GeneratedLessonContentSchema × Option UsageDict))
    (hplan : (resolve_effective_plan now db u).1 = "premium") :
    (∀ e, (generate_and_save_course s now db u req genC).1 = .error e → e.status ≠ 429) ∧
    (∀ e, (get_or_generate_lesson_content s now db u lid genL).1 = .error e →
      e.status ≠ 429) := by
  have hnf : ¬ (resolve_effective_plan now db u).1 = "free" := by
    rw [hplan]; decide
  constructor
  · intro e he
    simp only [generate_and_save_course] at he
    rw [if_neg hnf] at he
    cases genC with
    | error msg =>
      simp only [Except.error.injEq] at he
      rw [← he]
      simp
    | ok pr =>
      obtain ⟨gc, usage⟩ := pr
      simp at he
  · intro e he
    cases hfo : findOwnedLesson db u.id lid with
    | none =>
      rw [gogl_notfound s now db u lid genL hfo] at he
      simp only [Except.error.injEq] at he
      rw [← he]
      simp
    | some trip =>
      obtain ⟨l, m, c⟩ := trip
      by_cases hct : contentTruthy l.content = true
      · rw [gogl_fast_path s now db u lid genL l m c hfo hct] at he
        simp at he
      · have hctf : contentTruthy l.content = false := by
          revert hct; cases contentTruthy l.content <;> simp
        have hq : (if (resolve_effective_plan now db u).1 = "free" then
            enforce_free_lesson_limit s now (resolve_effective_plan now db u).2.2 u.id
          else none) = none := if_neg hnf
        cases genL with
        | error msg =>
          rw [gogl_gen_error s now db u lid msg l m c hfo hctf hq] at he
          simp only [Except.error.injEq] at he
          rw [← he]
          simp
        | ok pr =>
          obtain ⟨g, usage⟩ := pr
          rw [gogl_success s now db u lid g usage l m c hfo hctf hq] at he
          simp at he

/-- C2 counterexample: quota gating never consults is_admin.  An admin whose
plan_type is free, already at the daily course limit, receives the 429 — the
claim that every is_admin user bypasses the quota checks is false. -/
theorem admin_not_exempt_from_quota_cex :
    exAdminFree.is_admin = true ∧
    (generate_and_save_course defaultSettings now0 exDBAdmin exAdminFree
        { topic := "t", learning_goal := none, preferred_level := none }
        (.ok ({ title := "T", description := "D", modules := [] }, none))).1 =
      .error { status := 429, detail := "Free plan limit reached: 1 course per day." } := by
  exact ⟨rfl, by decide⟩

/-- C2 witness: a premium user (no trial expiry) can never see a 429 from
either endpoint, here at the concrete database and failing generator. -/
theorem premium_plan_bypasses_quota_witness :
    (generate_and_save_course defaultSettings now0 exDB exUser
        { topic := "t", learning_goal := none, preferred_level := none } (.error "boom")).1 ≠
      .error { status := 429, detail := "Free plan limit reached: 1 course per day." } ∧
    (get_or_generate_lesson_content defaultSettings now0 exDB exUser 30 (.error "boom")).1 ≠
      .error { status := 429, detail := "Free plan limit reached: 2 lessons per day." } := by
  have h := premium_plan_bypasses_quota defaultSettings now0 exDB exUser
    { topic := "t", learning_goal := none, preferred_level := none } (.error "boom")
    30 (.error "boom") rfl
  exact ⟨fun hc => h.1 _ hc rfl, fun hc => h.2 _ hc rfl⟩

/-- C3 (amended): when the lesson's content is non-null AND non-empty at the
time the row lock is acquired (the code tests Python truthiness, not just
non-null), the endpoint returns the existing content with the progress rows
loaded before the lock, unchanged database, for every generator outcome and
every settings value — so the generator is not invoked and the plan and
quota checks do not run. -/
theorem existing_content_fast_path (s : Settings) (now : Nat) (db : DB) (u : UserRec)
    (lid : Nat) (l : LessonRec) (m : ModuleRec) (c : CourseRec)
    (gen : Except String (GeneratedLessonContentSchema × Option UsageDict))
    (hfind : findOwnedLesson db u.id lid = some (l, m, c))
    (hct : contentTruthy l.content = true) :
    get_or_generate_lesson_content s now db u lid gen =
      (.ok (format_response l m (loadUserProgress db u.id l.id)), db) :=
  gogl_fast_path s now db u lid gen l m c hfind hct

/-- C3 counterexample: a lesson whose content is the non-null empty string is
regenerated — the endpoint returns freshly generated content instead of the
existing value and modifies the database, refuting the claim for a non-null
content field. -/
theorem existing_content_fast_path_cex :
    exLessonEmpty.content = some "" ∧ exLessonEmpty.content ≠ none ∧
    (get_or_generate_lesson_content defaultSettings now0 exDBEmpty exUser 30
        (.ok ({ content_markdown := "regen", quiz := [] }, none))).1 =
      .ok { id := 30, module_id := 20, course_id := 10, title := "Lesson",
            description := none, content := some "regen", quiz_data := some [],
            progress := [] } ∧
    some "regen" ≠ exLessonEmpty.content ∧
    (get_or_generate_lesson_content defaultSettings now0 exDBEmpty exUser 30
        (.ok ({ content_markdown := "regen", quiz := [] }, none))).2 ≠ exDBEmpty := by
  refine ⟨rfl, by decide, by decide, by decide, by decide⟩

/-- C3 witness: lesson 30 with existing content "hello" is returned as-is
with the database untouched even when the generator is a failing one. -/
theorem existing_content_fast_path_witness :
    get_or_generate_lesson_content defaultSettings now0 exDBDone exUser 30 (.error "down") =
      (.ok (format_response exLessonDone exModule []), exDBDone) := by
  have h := existing_content_fast_path defaultSettings now0 exDBDone exUser 30
    exLessonDone exModule exCourse (.error "down") (by decide) (by decide)
  exact h

/-- C4: when the lesson is ungenerated and the request reaches the external
generator (the effective plan is premium or the quota gate passes) and the
generator raises, the endpoint fails with the 500 server error and commits
nothing of the generation: the lessons table and the usage ledger are exactly
as before, so content, quiz_data and content_generated_at are still null and
no ledger entry is persisted. -/
theorem generation_failure_is_atomic (s : Settings) (now : Nat) (db : DB) (u : UserRec)
    (lid : Nat) (l : LessonRec) (m : ModuleRec) (c : CourseRec) (e : String)
    (hfind : findOwnedLesson db u.id lid = some (l, m, c))
    (hnull : l.content = none)
    (hreach : ¬ (resolve_effective_plan now db u).1 = "free" ∨
      enforce_free_lesson_limit s now (resolve_effective_plan now db u).2.2 u.id = none) :
    (get_or_generate_lesson_content s now db u lid (.error e)).1 =
      .error { status := 500, detail := "LLM Generation failed: " ++ e } ∧
    (get_or_generate_lesson_content s now db u lid (.error e)).2.lessons = db.lessons ∧
    (get_or_generate_lesson_content s now db u lid (.error e)).2.usage_events =
      db.usage_events := by
  have hctf : contentTruthy l.content = false := by rw [hnull]; rfl
  have hq : (if (resolve_effective_plan now db u).1 = "free" then
      enforce_free_lesson_limit s now (resolve_effective_plan now db u).2.2 u.id
    else none) = none := by
    rcases hreach with h | h
    · exact if_neg h
    · by_cases hf : (resolve_effective_plan now db u).1 = "free"
      · rw [if_pos hf]; exact h
      · exact if_neg hf
  rw [gogl_gen_error s now db u lid e l m c hfind hctf hq]
  exact ⟨rfl, (resolve_effective_plan_frame now db u).1,
    (resolve_effective_plan_frame now db u).2.2.2.2⟩

/-- C4 witness: a failing generator on the never-generated lesson 30 yields
the 500 and leaves the lessons table and usage ledger of the concrete
database unchanged. -/
theorem generation_failure_is_atomic_witness :
    (get_or_generate_lesson_content defaultSettings now0 exDB exUser 30 (.error "boom")).1 =
      .error { status := 500, detail := "LLM Generation failed: boom" } ∧
    (get_or_generate_lesson_content defaultSettings now0 exDB exUser 30
        (.error "boom")).2.lessons = exDB.lessons ∧
    (get_or_generate_lesson_content defaultSettings now0 exDB exUser 30
        (.error "boom")).2.usage_events = exDB.usage_events := by
  have h := generation_failure_is_atomic defaultSettings now0 exDB exUser 30
    exLessonNull exModule exCourse "boom" (by decide) rfl (Or.inl (by decide))
  exact h

/-- After a successful generation with non-empty content, a later request for
the same lesson takes the fast path and returns exactly the generated content
and quiz, leaving the database unchanged. -/
theorem gogl_success_then_read (s : Settings) (now now2 : Nat) (db : DB) (u : UserRec)
    (lid : Nat) (g : GeneratedLessonContentSchema) (usage : Option UsageDict)
    (gen2 : Except String (GeneratedLessonContentSchema × Option UsageDict))
    (l : LessonRec) (m : ModuleRec) (c : CourseRec)
    (hfo : findOwnedLesson db u.id lid = some (l, m, c))
    (hct : contentTruthy l.content = false)
    (hq : (if (resolve_effective_plan now db u).1 = "free" then
        enforce_free_lesson_limit s now (resolve_effective_plan now db u).2.2 u.id
      else none) = none)
    (hne : g.content_markdown ≠ "") :
    ∃ pr, get_or_generate_lesson_content s now2
        (get_or_generate_lesson_content s now db u lid (.ok (g, usage))).2 u lid gen2 =
      (.ok (format_response
        { l with
          content := some g.content_markdown, content_generated_at := some now,
          quiz_data := some g.quiz } m pr),
       (get_or_generate_lesson_content s now db u lid (.ok (g, usage))).2) := by
  obtain ⟨hfl, hfm, hfc, hown⟩ := findOwnedLesson_eq_some_elim db u.id lid l m c hfo
  have hdl : (get_or_generate_lesson_content s now db u lid (.ok (g, usage))).2.lessons =
      db.lessons.map (fun x => if decide (x.id = l.id) then
        { l with
          content := some g.content_markdown, content_generated_at := some now,
          quiz_data := some g.quiz }
      else x) := by
    rw [gogl_success s now db u lid g usage l m c hfo hct hq]
    simp only [log_llm_usage]
    rw [(resolve_effective_plan_frame now db u).1]
  have hdm : (get_or_generate_lesson_content s now db u lid (.ok (g, usage))).2.modules =
      db.modules := by
    rw [gogl_success s now db u lid g usage l m c hfo hct hq]
    simp only [log_llm_usage]
    exact (resolve_effective_plan_frame now db u).2.1
  have hdc : (get_or_generate_lesson_content s now db u lid (.ok (g, usage))).2.courses =
      db.courses := by
    rw [gogl_success s now db u lid g usage l m c hfo hct hq]
    simp only [log_llm_usage]
    exact (resolve_effective_plan_frame now db u).2.2.1
  have hfl3 : (get_or_generate_lesson_content s now db u lid
        (.ok (g, usage))).2.lessons.find? (fun x => decide (x.id = lid)) =
      some { l with
        content := some g.content_markdown, content_generated_at := some now,
        quiz_data := some g.quiz } := by
    rw [hdl]
    exact find?_map_if_eq (fun x => decide (x.id = lid)) (fun x => decide (x.id = l.id))
      { l with
        content := some g.content_markdown, content_generated_at := some now,
        quiz_data := some g.quiz }
      db.lessons l hfl (by simpa using List.find?_some hfl) (by simp)
  have hfo3 : findOwnedLesson
      (get_or_generate_lesson_content s now db u lid (.ok (g, usage))).2 u.id lid =
      some ({ l with
        content := some g.content_markdown, content_generated_at := some now,
        quiz_data := some g.quiz }, m, c) := by
    simp only [findOwnedLesson, hfl3, hdm, hfm, hdc, hfc, hown, if_true]
  have hct3 : contentTruthy ({ l with
      content := some g.content_markdown, content_generated_at := some now,
      quiz_data := some g.quiz } : LessonRec).content = true := decide_eq_true hne
  exact ⟨_, gogl_fast_path s now2 _ u lid gen2 _ m c hfo3 hct3⟩

/-- C1 (amended): under the row-lock serialization of the critical section,
one request never resets generated content (every lesson row after a call is
an untouched original row or carries non-null content, so the null to
non-null transition happens at most once per lesson), and provided the first
successful generation produced non-empty content, any second serialized
request for the same lesson returns exactly the same content and quiz data
instead of regenerating.  (The non-empty proviso is forced by the code's
truthiness re-check; see the counterexample.) -/
theorem lesson_generated_at_most_once (s : Settings) (now1 now2 : Nat) (db : DB)
    (u : UserRec) (lid : Nat) (g1 : GeneratedLessonContentSchema)
    (usage1 : Option UsageDict)
    (gen2 : Except String (GeneratedLessonContentSchema × Option UsageDict)) :
    (∀ l' ∈ (get_or_generate_lesson_content s now1 db u lid (.ok (g1, usage1))).2.lessons,
        l' ∈ db.lessons ∨ l'.content ≠ none) ∧
    (g1.content_markdown ≠ "" →
      ∀ r1 r2,
        (get_or_generate_lesson_content s now1 db u lid (.ok (g1, usage1))).1 = .ok r1 →
        (get_or_generate_lesson_content s now2
            (get_or_generate_lesson_content s now1 db u lid (.ok (g1, usage1))).2
            u lid gen2).1 = .ok r2 →
        r2.content = r1.content ∧ r2.quiz_data = r1.quiz_data) := by
  constructor
  · intro l' hl'
    cases hfo : findOwnedLesson db u.id lid with
    | none =>
      rw [gogl_notfound s now1 db u lid (.ok (g1, usage1)) hfo] at hl'
      exact Or.inl hl'
    | some trip =>
      obtain ⟨l, m, c⟩ := trip
      by_cases hct : contentTruthy l.content = true
      · rw [gogl_fast_path s now1 db u lid (.ok (g1, usage1)) l m c hfo hct] at hl'
        exact Or.inl hl'
      · have hctf : contentTruthy l.content = false := by
          revert hct; cases contentTruthy l.content <;> simp
        cases hq : (if (resolve_effective_plan now1 db u).1 = "free" then
            enforce_free_lesson_limit s now1 (resolve_effective_plan now1 db u).2.2 u.id
          else none) with
        | some err =>
          rw [gogl_quota_hit s now1 db u lid (.ok (g1, usage1)) l m c err hfo hctf hq] at hl'
          dsimp only at hl'
          rw [(resolve_effective_plan_frame now1 db u).1] at hl'
          exact Or.inl hl'
        | none =>
          rw [gogl_success s now1 db u lid g1 usage1 l m c hfo hctf hq] at hl'
          simp only [log_llm_usage] at hl'
          rw [(resolve_effective_plan_frame now1 db u).1] at hl'
          rw [List.mem_map] at hl'
          obtain ⟨x, hx, hfx⟩ := hl'
          by_cases hxid : decide (x.id = l.id) = true
          · rw [if_pos hxid] at hfx
            refine Or.inr ?_
            rw [← hfx]
            simp
          · rw [if_neg hxid] at hfx
            rw [← hfx]
            exact Or.inl hx
  · intro hne r1 r2 h1 h2
    cases hfo : findOwnedLesson db u.id lid with
    | none =>
      rw [gogl_notfound s now1 db u lid (.ok (g1, usage1)) hfo] at h1
      simp at h1
    | some trip =>
      obtain ⟨l, m, c⟩ := trip
      by_cases hct : contentTruthy l.content = true
      · have he1 := gogl_fast_path s now1 db u lid (.ok (g1, usage1)) l m c hfo hct
        rw [he1] at h1 h2
        dsimp only at h2
        rw [gogl_fast_path s now2 db u lid gen2 l m c hfo hct] at h2
        simp only [Except.ok.injEq] at h1 h2
        rw [← h1, ← h2]
        exact ⟨rfl, rfl⟩
      · have hctf : contentTruthy l.content = false := by
          revert hct; cases contentTruthy l.content <;> simp
        cases hq : (if (resolve_effective_plan now1 db u).1 = "free" then
            enforce_free_lesson_limit s now1 (resolve_effective_plan now1 db u).2.2 u.id
          else none) with
        | some err =>
          rw [gogl_quota_hit s now1 db u lid (.ok (g1, usage1)) l m c err hfo hctf hq] at h1
          simp at h1
        | none =>
          obtain ⟨pr, he2⟩ := gogl_success_then_read s now1 now2 db u lid g1 usage1 gen2
            l m c hfo hctf hq hne
          rw [he2] at h2
          rw [gogl_success s now1 db u lid g1 usage1 l m c hfo hctf hq] at h1
          simp only [Except.ok.injEq] at h1 h2
          rw [← h1, ← h2]
          exact ⟨rfl, rfl⟩

/-- C1 counterexample: when the first successful generation produces the
empty string as content, a second serialized request regenerates (the
truthiness re-check treats the stored empty content as absent) and returns
different content — refuting the unconditional claim that every request after
the first successful generation sees that generation's data. -/
theorem lesson_regenerated_after_empty_generation_cex :
    (get_or_generate_lesson_content defaultSettings now0 exDB exUser 30
        (.ok ({ content_markdown := "", quiz := [] }, none))).1 =
      .ok { id := 30, module_id := 20, course_id := 10, title := "Lesson",
            description := none, content := some "", quiz_data := some [],
            progress := [] } ∧
    (get_or_generate_lesson_content defaultSettings (now0 + 60)
        (get_or_generate_lesson_content defaultSettings now0 exDB exUser 30
          (.ok ({ content_markdown := "", quiz := [] }, none))).2
        exUser 30 (.ok ({ content_markdown := "second", quiz := [] }, none))).1 =
      .ok { id := 30, module_id := 20, course_id := 10, title := "Lesson",
            description := none, content := some "second", quiz_data := some [],
            progress := [] } ∧
    some "" ≠ some "second" := by
  refine ⟨by decide, by decide, by decide⟩

/-- C1 witness: a first generation with non-empty content "body" followed by
a second request (with a failing generator, which is never consulted) — the
updated lesson row carries non-null content and the second response equals
the first. -/
theorem lesson_generated_at_most_once_witness :
    (exLessonGenBody ∈ exDB.lessons ∨ exLessonGenBody.content ≠ none) ∧
    (exRespBody.content = exRespBody.content ∧
      exRespBody.quiz_data = exRespBody.quiz_data) := by
  have h := lesson_generated_at_most_once defaultSettings now0 (now0 + 60) exDB exUser 30
    { content_markdown := "body", quiz := [] } none (.error "down")
  exact ⟨h.1 _ (by decide), h.2 (by decide) _ _ rfl rfl⟩
